import Mathlib

/-!
# Verification of the video-translation pipeline (`main.py`)

This file embeds, over exact rational arithmetic, the algorithmic parts of
`VideoTranslator` in `src/main.py`:

* `adjust_audio_duration_plan` — the tempo plan (ordered list of `atempo`
  factors) built by `VideoTranslator.adjust_audio_duration`
  (main.py lines 284–369);
* `probe_stream_duration` — the duration probing of
  `VideoTranslator.get_video_duration` (lines 198–208) and
  `VideoTranslator.get_audio_duration` (lines 273–282), which share the same
  logic;
* `mix_audio_with_background` — the mixing filter graph built by
  `VideoTranslator.mix_audio_with_background` (lines 420–459);
* `text_to_speech` — the provider dispatch of
  `VideoTranslator.text_to_speech` (lines 382–418), together with the
  constructor's credential handling (lines 55–66);
* `is_youtube_url` — the URL classifier (lines 69–79).

Python floats are modelled as exact rationals `ℚ` (`0.05`, `0.5`, `2.0` are
written `5/100`, `1/2`, `2`); external tool behaviour (the ffmpeg `atempo`,
`volume` and `amix` filters) is modelled by its documented sample-level
semantics, since the Python code only constructs the filter graphs.
-/

/-! ## Duration reconciliation (`adjust_audio_duration`, main.py 284–369) -/

/-- `speed_factor` as computed at main.py line 293:
`speed_factor = current_duration / target_duration`. -/
def speed_factor (current_duration target_duration : ℚ) : ℚ :=
  current_duration / target_duration

/-- The ordered list of `atempo` factors that `adjust_audio_duration` applies
for a given `speed_factor` value `s`, branch for branch (main.py 298–369):

* line 298: `if abs(speed_factor - 1.0) < 0.05` — copy, no filter;
* line 308: `elif 0.5 <= speed_factor <= 2.0` — one `atempo speed_factor`;
* lines 319–344 (`speed_factor > 2.0`): `factor1 = min(speed_factor, 2.0)`,
  `remaining_factor = speed_factor / factor1`; if `remaining_factor > 1.0`
  the chain is `atempo factor1, atempo (min remaining_factor 2.0)`, else
  only `atempo factor1`;
* lines 345–369 (`else`, i.e. `speed_factor < 0.5`):
  `factor1 = max(speed_factor, 0.5)`,
  `remaining_factor = speed_factor / factor1`; if `remaining_factor < 1.0`
  the chain is `atempo factor1, atempo (max remaining_factor 0.5)`, else
  only `atempo factor1`. -/
def tempo_plan_of_factor (s : ℚ) : List ℚ :=
  if |s - 1| < 5/100 then
    []
  else if 1/2 ≤ s ∧ s ≤ 2 then
    [s]
  else if s > 2 then
    let factor1 := min s 2
    let remaining_factor := s / factor1
    if remaining_factor > 1 then [factor1, min remaining_factor 2]
    else [factor1]
  else
    let factor1 := max s (1/2)
    let remaining_factor := s / factor1
    if remaining_factor < 1 then [factor1, max remaining_factor (1/2)]
    else [factor1]

/-- The tempo plan built by `VideoTranslator.adjust_audio_duration` for an
input of duration `current_duration` and a target of `target_duration`. -/
def adjust_audio_duration_plan (current_duration target_duration : ℚ) : List ℚ :=
  tempo_plan_of_factor (speed_factor current_duration target_duration)

/-- Product of the factors of a tempo plan (composition of the chain). -/
def planProduct (plan : List ℚ) : ℚ :=
  plan.foldl (· * ·) 1

/-- Documented semantics of one ffmpeg `atempo` step: playing at tempo `f`
divides the duration by `f` (pitch preserved). -/
def atempoDuration (d f : ℚ) : ℚ := d / f

/-- Duration after applying a tempo plan left-to-right. -/
def applyPlanDuration (d : ℚ) (plan : List ℚ) : ℚ :=
  plan.foldl atempoDuration d

/-- Output duration of `adjust_audio_duration`: the input duration transformed
by each applied `atempo` step (the copy branch leaves it unchanged). -/
def adjust_audio_duration_result (current_duration target_duration : ℚ) : ℚ :=
  applyPlanDuration current_duration
    (adjust_audio_duration_plan current_duration target_duration)

/-! ## Media probing (`get_video_duration` 198–208, `get_audio_duration`
273–282)

Both methods run `probe = ffmpeg.probe(path)` and then
`float(probe["streams"][0]["duration"])`, re-raising any exception.  A probe
outcome is therefore: the tool itself failed, or it returned a stream list;
the first stream's `duration` field may be absent, present but non-numeric,
or a number. -/

/-- One stream's metadata as returned by `ffmpeg.probe`: `duration = none`
when the `duration` key is absent, `some none` when it is present but
`float(...)` cannot parse it, `some (some d)` when it parses to `d`. -/
structure StreamMeta where
  duration : Option (Option ℚ)

/-- Outcome of `ffmpeg.probe` on a path: the inspection tool raised (file
unreadable, not media, tool error), or it produced a stream list. -/
inductive ProbeOutcome where
  | toolFailure
  | streams (l : List StreamMeta)

/-- The distinct ways `get_video_duration` / `get_audio_duration` raise:
`ffmpeg.probe` raised, `probe["streams"][0]` raised (empty list),
`["duration"]` raised (missing key), or `float(...)` raised (non-numeric). -/
inductive ProbeError where
  | toolFailure
  | noStreams
  | noDurationField
  | invalidDuration

/-- Shared body of `VideoTranslator.get_video_duration` (main.py 198–208) and
`VideoTranslator.get_audio_duration` (main.py 273–282):
`duration = float(probe["streams"][0]["duration"])`, returned as-is;
any failure along the way is re-raised. -/
def probe_stream_duration : ProbeOutcome → Except ProbeError ℚ
  | .toolFailure => .error .toolFailure
  | .streams [] => .error .noStreams
  | .streams (s0 :: _) =>
    match s0.duration with
    | none => .error .noDurationField
    | some none => .error .invalidDuration
    | some (some d) => .ok d

/-! ## Audio mixing (`mix_audio_with_background`, main.py 420–459)

Audio tracks are modelled as lists of samples (`List ℚ`).  The Python code
builds the filter graph `volume background_volume` on the video's audio,
optionally `volume speech_volume` on the speech, and
`amix inputs=2 duration=longest`; the filters' documented sample-level
semantics are: `volume g` scales every sample by `g`, and the mix sums the two
inputs sample-wise, with output length equal to the longer input (the shorter
input reads as silence past its end). -/

/-- ffmpeg `volume` filter: scale every sample by `gain`. -/
def volumeFilter (gain : ℚ) (samples : List ℚ) : List ℚ :=
  samples.map (fun x => gain * x)

/-- ffmpeg `amix inputs=2 duration=longest`: sample-wise sum, output length
the longer of the two inputs, missing samples read as silence. -/
def amixLongest (a b : List ℚ) : List ℚ :=
  (List.range (max a.length b.length)).map (fun i => a.getD i 0 + b.getD i 0)

/-- `VideoTranslator.mix_audio_with_background` (main.py 420–459), at the
audio level: `background_audio = video["a"].volume(background_volume)`;
`speech_audio = speech["a"].volume(speech_volume)` only when
`speech_volume != 1.0`, else the speech track unchanged; then
`amix([background_audio, speech_audio], inputs=2, duration="longest")`. -/
def mix_audio_with_background (video_audio new_speech : List ℚ)
    (background_volume speech_volume : ℚ) : List ℚ :=
  let background_audio := volumeFilter background_volume video_audio
  let speech_audio :=
    if speech_volume ≠ 1 then volumeFilter speech_volume new_speech
    else new_speech
  amixLongest background_audio speech_audio

/-! ## Text-to-speech provider dispatch (`text_to_speech`, main.py 382–418)

`__init__` (main.py 55–66) raises `ValueError("OpenAI API key is required.
...")` when no OpenAI key is available, and sets `self.eleven_client` to a
client exactly when an ElevenLabs key was supplied (else `None`).
`text_to_speech` dispatches on `tts_provider.lower()`: `"openai"` always has
a client; `"elevenlabs"` raises `ValueError("ElevenLabs client not
initialized. API key required.")` when `self.eleven_client` is `None`; any
other value raises `ValueError(f"Unsupported TTS provider: ...")`. -/

/-- The two distinct errors raised inside `text_to_speech`:
`elevenlabsClientMissing` is `ValueError("ElevenLabs client not initialized.
API key required.")` (main.py 400), `unsupportedProvider` is
`ValueError(f"Unsupported TTS provider: \x7btts_provider\x7d")`
(main.py 412). -/
inductive TTSError where
  | elevenlabsClientMissing
  | unsupportedProvider (provider : String)

/-- `VideoTranslator.__init__` (main.py 55–66) with the resolved key values
(argument or environment): fails without an OpenAI key; returns whether
`self.eleven_client` was initialized, which happens exactly when an
ElevenLabs key was supplied. -/
def videoTranslator_init (api_key elevenlabs_api_key : Option String) :
    Except String Bool :=
  match api_key with
  | none => .error "OpenAI API key is required. Set OPENAI_API_KEY environment variable."
  | some _ => .ok elevenlabs_api_key.isSome

/-- `VideoTranslator.text_to_speech` (main.py 382–418) restricted to its
control flow: `eleven_client` records whether `self.eleven_client` is set
(an ElevenLabs key was supplied at construction). -/
def text_to_speech (tts_provider : String) (eleven_client : Bool) :
    Except TTSError Unit :=
  if tts_provider.toLower = "openai" then .ok ()
  else if tts_provider.toLower = "elevenlabs" then
    if eleven_client = false then .error .elevenlabsClientMissing
    else .ok ()
  else .error (.unsupportedProvider tts_provider)

/-! ## URL classification (`is_youtube_url`, main.py 69–79)

`is_youtube_url` returns whether any of five regular expressions matches a
prefix of the input (`re.match`, `re.IGNORECASE`).  Each pattern is an
optional scheme `(?:https?://)?`, an optional host qualifier (`www.` or
`m.`), a fixed literal, and `[\w-]+` (at least one word character or dash).
Case-insensitivity is modelled by lowercasing the input; the pattern
literals are already lowercase. -/

/-- A character matched by the regex class `[\w-]` on ASCII input. -/
def isWordOrDashChar (c : Char) : Bool :=
  c.isAlphanum || c = '_' || c = '-'

/-- Strip the literal `lit` from the front of `s`; `none` when `s` does not
start with `lit`. -/
def stripLit : List Char → List Char → Option (List Char)
  | [], s => some s
  | _ :: _, [] => none
  | c :: cs, d :: ds => if c = d then stripLit cs ds else none

/-- `re.match` of the pattern `lit` followed by `[\w-]+` against a prefix of
`s`: `s` starts with `lit` and at least one word character follows. -/
def matchLitThenWord (lit : String) (s : List Char) : Bool :=
  match stripLit lit.data s with
  | none => false
  | some [] => false
  | some (c :: _) => isWordOrDashChar c

/-- The optional group `(?:lit)?`: strip `lit` when present. -/
def dropOptLit (lit : String) (s : List Char) : List Char :=
  match stripLit lit.data s with
  | some rest => rest
  | none => s

/-- The optional scheme group `(?:https?://)?`. -/
def dropOptScheme (s : List Char) : List Char :=
  match stripLit "https://".data s with
  | some rest => rest
  | none =>
    match stripLit "http://".data s with
    | some rest => rest
    | none => s

/-- `VideoTranslator.is_youtube_url` (main.py 69–79): true iff one of the
five YouTube URL patterns matches a prefix of the input, case-insensitively:
`youtube.com/watch?v=`, `youtu.be/`, `youtube.com/embed/` (each after
optional scheme and `www.`), `youtube.com/watch?v=` after optional scheme
and `m.`, and `youtube.com/shorts/` after optional scheme and `www.`. -/
def is_youtube_url (url : String) : Bool :=
  let u := url.data.map Char.toLower
  matchLitThenWord "youtube.com/watch?v=" (dropOptLit "www." (dropOptScheme u)) ||
  matchLitThenWord "youtu.be/" (dropOptLit "www." (dropOptScheme u)) ||
  matchLitThenWord "youtube.com/embed/" (dropOptLit "www." (dropOptScheme u)) ||
  matchLitThenWord "youtube.com/watch?v=" (dropOptLit "m." (dropOptScheme u)) ||
  matchLitThenWord "youtube.com/shorts/" (dropOptLit "www." (dropOptScheme u))

/-! ### Branch characterization lemmas -/

lemma tempo_plan_near (s : ℚ) (h : |s - 1| < 5/100) :
    tempo_plan_of_factor s = [] := by
  simp [tempo_plan_of_factor, h]

lemma tempo_plan_single (s : ℚ) (h1 : ¬ |s - 1| < 5/100)
    (h2 : 1/2 ≤ s) (h3 : s ≤ 2) :
    tempo_plan_of_factor s = [s] := by
  unfold tempo_plan_of_factor
  rw [if_neg h1, if_pos ⟨h2, h3⟩]

lemma tempo_plan_speedup (s : ℚ) (h : 2 < s) :
    tempo_plan_of_factor s = [2, min (s / 2) 2] := by
  have h1 : ¬ |s - 1| < 5/100 := by
    have : (5:ℚ)/100 ≤ |s - 1| := le_abs.mpr (Or.inl (by linarith))
    linarith
  have h2 : ¬ (1/2 ≤ s ∧ s ≤ 2) := by
    rintro ⟨-, hs2⟩; linarith
  have hmin : min s 2 = 2 := min_eq_right h.le
  have hrem : s / min s 2 > 1 := by
    rw [hmin]; exact (one_lt_div (by norm_num)).mpr h
  unfold tempo_plan_of_factor
  rw [if_neg h1, if_neg h2, if_pos (show s > 2 from h)]
  show (if s / min s 2 > 1 then [min s 2, min (s / min s 2) 2]
        else [min s 2]) = [2, min (s / 2) 2]
  rw [if_pos hrem, hmin]

lemma tempo_plan_slowdown (s : ℚ) (h : s < 1/2) :
    tempo_plan_of_factor s = [1/2, max (2 * s) (1/2)] := by
  have h1 : ¬ |s - 1| < 5/100 := by
    have : (5:ℚ)/100 ≤ |s - 1| := le_abs.mpr (Or.inr (by linarith))
    linarith
  have h2 : ¬ (1/2 ≤ s ∧ s ≤ 2) := by
    rintro ⟨hs1, -⟩; linarith
  have h3 : ¬ s > 2 := by linarith
  have hmax : max s (1/2) = 1/2 := max_eq_right h.le
  have hdiv : s / max s (1/2) = 2 * s := by rw [hmax]; ring
  have hrem : s / max s (1/2) < 1 := by rw [hdiv]; linarith
  unfold tempo_plan_of_factor
  rw [if_neg h1, if_neg h2, if_neg h3]
  show (if s / max s (1/2) < 1 then [max s (1/2), max (s / max s (1/2)) (1/2)]
        else [max s (1/2)]) = [1/2, max (2 * s) (1/2)]
  rw [if_pos hrem, hdiv, hmax]

/-! ## Helper lemmas for sample-wise mixing -/

lemma getD_volumeFilter (g : ℚ) (l : List ℚ) (i : ℕ) :
    (volumeFilter g l).getD i 0 = g * l.getD i 0 := by
  induction l generalizing i with
  | nil => simp [volumeFilter]
  | cons a l ih =>
    cases i with
    | zero => simp [volumeFilter]
    | succ n => simpa [volumeFilter] using ih n

lemma length_volumeFilter (g : ℚ) (l : List ℚ) :
    (volumeFilter g l).length = l.length := by
  simp [volumeFilter]

lemma length_amixLongest (a b : List ℚ) :
    (amixLongest a b).length = max a.length b.length := by
  simp [amixLongest]

lemma getD_amixLongest (a b : List ℚ) (i : ℕ) :
    (amixLongest a b).getD i 0 = a.getD i 0 + b.getD i 0 := by
  unfold amixLongest
  rcases lt_or_le i (max a.length b.length) with h | h
  · rw [List.getD_eq_getElem?_getD, List.getElem?_map, List.getElem?_range h]
    simp
  · have ha : a.length ≤ i := le_trans (le_max_left _ _) h
    have hb : b.length ≤ i := le_trans (le_max_right _ _) h
    rw [List.getD_eq_default _ _ (by simpa using h),
        List.getD_eq_default _ _ ha, List.getD_eq_default _ _ hb]
    norm_num

/-! ## Claim theorems -/

/-- C1 (counterexample): for `currentDuration = 5`, `targetDuration = 1` the
required speed ratio is 5, but the tempo plan built is `[2, 2]`, whose
product is 4 — not equal to the required ratio, and off by 1, far beyond any
floating-point tolerance. -/
theorem tempo_plan_product_gap_at_factor_five :
    speed_factor 5 1 = 5 ∧
    adjust_audio_duration_plan 5 1 = [2, 2] ∧
    planProduct (adjust_audio_duration_plan 5 1) = 4 ∧
    planProduct (adjust_audio_duration_plan 5 1) ≠ speed_factor 5 1 ∧
    ¬ |planProduct (adjust_audio_duration_plan 5 1) - speed_factor 5 1| < 1/10 := by
  have h1 : speed_factor 5 1 = 5 := by norm_num [speed_factor]
  have h2 : adjust_audio_duration_plan 5 1 = [2, 2] := by
    unfold adjust_audio_duration_plan
    rw [h1, tempo_plan_speedup 5 (by norm_num),
        min_eq_right (by norm_num : (2:ℚ) ≤ 5/2)]
  have h3 : planProduct (adjust_audio_duration_plan 5 1) = 4 := by
    rw [h2]; simp [planProduct]; norm_num
  refine ⟨h1, h2, h3, ?_, ?_⟩
  · rw [h3, h1]; norm_num
  · rw [h3, h1]; norm_num [abs_lt]

/-- C1 (amended): whenever the required speed ratio
`speedFactor = currentDuration / targetDuration` lies in `[1/4, 4]` and
outside the near-identity band (`|speedFactor - 1| ≥ 0.05`), the product of
the tempo plan's factors equals `speedFactor` exactly. -/
theorem tempo_plan_product_eq_speed_factor (c t : ℚ)
    (h1 : 1/4 ≤ speed_factor c t) (h2 : speed_factor c t ≤ 4)
    (h3 : ¬ |speed_factor c t - 1| < 5/100) :
    planProduct (adjust_audio_duration_plan c t) = speed_factor c t := by
  unfold adjust_audio_duration_plan
  set s := speed_factor c t with hsdef
  by_cases hband : 1/2 ≤ s ∧ s ≤ 2
  · rw [tempo_plan_single s h3 hband.1 hband.2]
    simp [planProduct]
  · push_neg at hband
    rcases lt_or_le s (1/2) with hlt | hge
    · rw [tempo_plan_slowdown s hlt,
          max_eq_left (by linarith : (1:ℚ)/2 ≤ 2 * s)]
      simp [planProduct]; try ring
    · have h2s : 2 < s := hband hge
      rw [tempo_plan_speedup s h2s,
          min_eq_left (by linarith : s/2 ≤ 2)]
      simp [planProduct]; try ring

/-- C1 (witness): at `currentDuration = 3`, `targetDuration = 1` the
hypotheses hold and the plan's product equals the speed ratio. -/
theorem tempo_plan_product_eq_speed_factor_witness :
    planProduct (adjust_audio_duration_plan 3 1) = speed_factor 3 1 :=
  tempo_plan_product_eq_speed_factor 3 1
    (by norm_num [speed_factor]) (by norm_num [speed_factor])
    (by norm_num [speed_factor, abs_lt])

/-- C2 (counterexample): at the upper endpoint of the claimed band,
`currentDuration = 21`, `targetDuration = 20` gives `speedFactor = 1.05 =
21/20`, which lies in `[0.95, 1.05]`; yet the code applies one `atempo 1.05`
step (the test `abs(speed_factor - 1.0) < 0.05` is strict), and the output
duration is 20, not the input's original 21. -/
theorem near_identity_band_upper_endpoint_adjusts :
    speed_factor 21 20 = 21/20 ∧
    ((19:ℚ)/20 ≤ 21/20 ∧ (21:ℚ)/20 ≤ 21/20) ∧
    adjust_audio_duration_plan 21 20 = [21/20] ∧
    adjust_audio_duration_result 21 20 = 20 ∧
    adjust_audio_duration_result 21 20 ≠ 21 := by
  have h1 : speed_factor 21 20 = 21/20 := by norm_num [speed_factor]
  have h2 : adjust_audio_duration_plan 21 20 = [21/20] := by
    unfold adjust_audio_duration_plan
    rw [h1, tempo_plan_single (21/20) (by norm_num [abs_lt]) (by norm_num)
      (by norm_num)]
  have h3 : adjust_audio_duration_result 21 20 = 20 := by
    unfold adjust_audio_duration_result
    rw [h2]
    simp only [applyPlanDuration, List.foldl_cons, List.foldl_nil,
      atempoDuration]
    norm_num
  exact ⟨h1, by norm_num, h2, h3, by rw [h3]; norm_num⟩

/-- C2 (amended): whenever `|speedFactor - 1| < 0.05` holds with strict
inequality (the open band; the endpoints `0.95` and `1.05` are excluded),
no tempo transformation is applied and the output duration equals the
input's original duration. -/
theorem near_identity_noop (c t : ℚ)
    (h : |speed_factor c t - 1| < 5/100) :
    adjust_audio_duration_plan c t = [] ∧
    adjust_audio_duration_result c t = c := by
  have hplan : adjust_audio_duration_plan c t = [] := tempo_plan_near _ h
  exact ⟨hplan, by unfold adjust_audio_duration_result; rw [hplan]; rfl⟩

/-- C2 (witness): at `currentDuration = 102`, `targetDuration = 100`
(`speedFactor = 1.02`) the no-op path is taken and the duration is kept. -/
theorem near_identity_noop_witness :
    adjust_audio_duration_plan 102 100 = [] ∧
    adjust_audio_duration_result 102 100 = 102 :=
  near_identity_noop 102 100 (by norm_num [speed_factor, abs_lt])

/-- C3: for every `speedFactor` in `[0.5, 2.0]` outside the near-identity
band, exactly one `atempo` step with factor `speedFactor` is applied, and
the resulting duration equals the target exactly. -/
theorem single_step_policy (c t : ℚ) (ht : 0 < t)
    (h1 : 1/2 ≤ speed_factor c t) (h2 : speed_factor c t ≤ 2)
    (h3 : ¬ |speed_factor c t - 1| < 5/100) :
    adjust_audio_duration_plan c t = [speed_factor c t] ∧
    adjust_audio_duration_result c t = t := by
  have hplan : adjust_audio_duration_plan c t = [speed_factor c t] :=
    tempo_plan_single _ h3 h1 h2
  refine ⟨hplan, ?_⟩
  unfold adjust_audio_duration_result
  rw [hplan]
  simp only [applyPlanDuration, List.foldl_cons, List.foldl_nil,
    atempoDuration, speed_factor]
  have hst : 0 < c / t := lt_of_lt_of_le (by norm_num) h1
  have hc : 0 < c := by
    have h := div_mul_cancel₀ c ht.ne'
    nlinarith [mul_pos hst ht]
  rw [div_eq_iff hst.ne', eq_comm, mul_comm]
  exact div_mul_cancel₀ c ht.ne'

/-- C3 (witness): `currentDuration = 3`, `targetDuration = 2` gives
`speedFactor = 1.5`; one `atempo 1.5` step, output duration 2. -/
theorem single_step_policy_witness :
    adjust_audio_duration_plan 3 2 = [speed_factor 3 2] ∧
    adjust_audio_duration_result 3 2 = 2 :=
  single_step_policy 3 2 (by norm_num)
    (by norm_num [speed_factor]) (by norm_num [speed_factor])
    (by norm_num [speed_factor, abs_lt])

/-- C4: for `speedFactor = 3.0` (current 9s, target 3s) the plan is
`[2.0, 1.5]`, product 3; for `speedFactor = 0.25` (current 3s, target 12s)
the plan is `[0.5, 0.5]`, product 0.25; each applied in list order as one
filter chain. -/
theorem chained_policy_examples :
    speed_factor 9 3 = 3 ∧
    adjust_audio_duration_plan 9 3 = [2, 3/2] ∧
    planProduct (adjust_audio_duration_plan 9 3) = 3 ∧
    speed_factor 3 12 = 1/4 ∧
    adjust_audio_duration_plan 3 12 = [1/2, 1/2] ∧
    planProduct (adjust_audio_duration_plan 3 12) = 1/4 := by
  have h1 : speed_factor 9 3 = 3 := by norm_num [speed_factor]
  have h2 : adjust_audio_duration_plan 9 3 = [2, 3/2] := by
    unfold adjust_audio_duration_plan
    rw [h1, tempo_plan_speedup 3 (by norm_num),
        min_eq_left (by norm_num : (3:ℚ)/2 ≤ 2)]
  have h3 : speed_factor 3 12 = 1/4 := by norm_num [speed_factor]
  have h4 : adjust_audio_duration_plan 3 12 = [1/2, 1/2] := by
    unfold adjust_audio_duration_plan
    rw [h3, tempo_plan_slowdown (1/4) (by norm_num),
        max_eq_left (by norm_num : (1:ℚ)/2 ≤ 2 * (1/4))]
    norm_num
  refine ⟨h1, h2, ?_, h3, h4, ?_⟩
  · rw [h2]; simp [planProduct]; norm_num
  · rw [h4]; simp [planProduct]; norm_num

/-- C5: for every positive current and target duration, every factor of the
tempo plan lies in `[0.5, 2.0]` and the plan has at most two steps. -/
theorem tempo_plan_bounded (c t : ℚ) (_hc : 0 < c) (_ht : 0 < t) :
    (∀ f ∈ adjust_audio_duration_plan c t, 1/2 ≤ f ∧ f ≤ 2) ∧
    (adjust_audio_duration_plan c t).length ≤ 2 := by
  unfold adjust_audio_duration_plan
  set s := speed_factor c t with hsdef
  by_cases hnear : |s - 1| < 5/100
  · rw [tempo_plan_near s hnear]; simp
  by_cases hband : 1/2 ≤ s ∧ s ≤ 2
  · rw [tempo_plan_single s hnear hband.1 hband.2]
    refine ⟨?_, by simp⟩
    intro f hf
    simp only [List.mem_singleton] at hf
    exact hf ▸ hband
  · push_neg at hband
    rcases lt_or_le s (1/2) with hlt | hge
    · rw [tempo_plan_slowdown s hlt]
      refine ⟨?_, by simp⟩
      intro f hf
      simp only [List.mem_cons, List.mem_singleton, List.not_mem_nil,
        or_false] at hf
      rcases hf with rfl | rfl
      · norm_num
      · exact ⟨le_max_right _ _, max_le (by linarith) (by norm_num)⟩
    · have h2s : 2 < s := hband hge
      rw [tempo_plan_speedup s h2s]
      refine ⟨?_, by simp⟩
      intro f hf
      simp only [List.mem_cons, List.mem_singleton, List.not_mem_nil,
        or_false] at hf
      rcases hf with rfl | rfl
      · norm_num
      · exact ⟨le_min (by linarith) (by norm_num), min_le_right _ _⟩

/-- C5 (witness): at `currentDuration = 9`, `targetDuration = 3` the plan's
factors are bounded and it has at most two steps. -/
theorem tempo_plan_bounded_witness :
    (∀ f ∈ adjust_audio_duration_plan 9 3, 1/2 ≤ f ∧ f ≤ 2) ∧
    (adjust_audio_duration_plan 9 3).length ≤ 2 :=
  tempo_plan_bounded 9 3 (by norm_num) (by norm_num)

/-- C6: whenever the chained policy triggers (`speedFactor > 2` or
`speedFactor < 0.5`) on positive durations, the remaining factor after the
first clamped step is strictly greater than 1 (respectively strictly less
than 1), so the one-step fallback inside each chained case is unreachable
and the plan has exactly two steps. -/
theorem chained_policy_exactly_two_steps (c t : ℚ) (_hc : 0 < c) (_ht : 0 < t)
    (h : 2 < speed_factor c t ∨ speed_factor c t < 1/2) :
    (2 < speed_factor c t →
      1 < speed_factor c t / min (speed_factor c t) 2) ∧
    (speed_factor c t < 1/2 →
      speed_factor c t / max (speed_factor c t) (1/2) < 1) ∧
    (adjust_audio_duration_plan c t).length = 2 := by
  refine ⟨?_, ?_, ?_⟩
  · intro h2
    rw [min_eq_right h2.le]
    exact (one_lt_div (by norm_num)).mpr h2
  · intro hlt
    rw [max_eq_right hlt.le, div_lt_iff₀ (by norm_num : (0:ℚ) < 1/2)]
    linarith
  · unfold adjust_audio_duration_plan
    rcases h with h2 | hlt
    · rw [tempo_plan_speedup _ h2]; rfl
    · rw [tempo_plan_slowdown _ hlt]; rfl

/-- C6 (witness): at `currentDuration = 5`, `targetDuration = 1`
(`speedFactor = 5`) the chained policy yields exactly two steps. -/
theorem chained_policy_exactly_two_steps_witness :
    (2 < speed_factor 5 1 →
      1 < speed_factor 5 1 / min (speed_factor 5 1) 2) ∧
    (speed_factor 5 1 < 1/2 →
      speed_factor 5 1 / max (speed_factor 5 1) (1/2) < 1) ∧
    (adjust_audio_duration_plan 5 1).length = 2 :=
  chained_policy_exactly_two_steps 5 1 (by norm_num) (by norm_num)
    (Or.inl (by norm_num [speed_factor]))

/-- C7 (counterexample): a probeable file whose first stream's metadata
records duration `0` makes `get_video_duration` / `get_audio_duration`
return `0` — not strictly greater than 0, and no error is signalled. -/
theorem probe_returns_zero_duration :
    probe_stream_duration (.streams [⟨some (some 0)⟩]) = .ok 0 ∧
    ¬ (0:ℚ) > 0 := by
  exact ⟨rfl, by norm_num⟩

/-- C7 (amended): the probe returns exactly the duration value recorded in
the first stream's metadata (with no positivity check), and it signals an
error precisely when the inspection tool fails, the probe reports no
streams, or the first stream's `duration` field is missing or
non-numeric. -/
theorem probe_stream_duration_spec :
    (∀ (rest : List StreamMeta) (d : ℚ),
        probe_stream_duration (.streams (⟨some (some d)⟩ :: rest)) = .ok d) ∧
    (∀ o : ProbeOutcome,
        (∃ e, probe_stream_duration o = .error e) ↔
          (o = .toolFailure ∨ o = .streams [] ∨
            ∃ s rest, o = .streams (s :: rest) ∧
              (s.duration = none ∨ s.duration = some none))) := by
  constructor
  · intro rest d; rfl
  · intro o
    cases o with
    | toolFailure =>
      exact iff_of_true ⟨.toolFailure, rfl⟩ (Or.inl rfl)
    | streams l =>
      cases l with
      | nil =>
        exact iff_of_true ⟨.noStreams, rfl⟩ (Or.inr (Or.inl rfl))
      | cons s0 rest =>
        rcases hs : s0.duration with - | d1
        · refine iff_of_true ⟨.noDurationField, ?_⟩
            (Or.inr (Or.inr ⟨s0, rest, rfl, Or.inl hs⟩))
          simp [probe_stream_duration, hs]
        · rcases d1 with - | d
          · refine iff_of_true ⟨.invalidDuration, ?_⟩
              (Or.inr (Or.inr ⟨s0, rest, rfl, Or.inr hs⟩))
            simp [probe_stream_duration, hs]
          · refine iff_of_false ?_ ?_
            · rintro ⟨e, he⟩
              simp [probe_stream_duration, hs] at he
            · rintro (h | h | ⟨s', rest', heq, hdur⟩)
              · exact ProbeOutcome.noConfusion h
              · simp at h
              · obtain ⟨rfl, rfl⟩ :=
                  by simpa using heq
                rcases hdur with h' | h' <;> rw [hs] at h' <;> simp at h'

/-- C8 (counterexample): with a 2-sample background `[1, 1]` and a 1-sample
speech track `[5]`, `composeMix` at `backgroundGain = 0` (and `speechGain =
1`) outputs `[5, 0]` — the speech padded with trailing silence to the
background's length — which is not equal to the speech track `[5]` alone. -/
theorem mix_background_zero_not_speech_alone :
    mix_audio_with_background [1, 1] [5] 0 1 = [5, 0] ∧
    mix_audio_with_background [1, 1] [5] 0 1 ≠ [5] := by
  have h : mix_audio_with_background [1, 1] [5] 0 1 = [5, 0] := by
    norm_num [mix_audio_with_background, amixLongest, volumeFilter,
      List.range_succ]
  exact ⟨h, by rw [h]; simp⟩

/-- C8 (amended): with `backgroundGain = 0` the output agrees sample-for-
sample with the speech track scaled by `speechGain` (positions past a
track's end reading as silence), and with `speechGain = 0` it agrees
sample-for-sample with the video's audio scaled by `backgroundGain`; in both
cases the output length is the longer of the two inputs, so the surviving
track is padded with trailing silence when the other is longer. -/
theorem mix_gain_zero_samplewise (video_audio new_speech : List ℚ)
    (background_volume speech_volume : ℚ) :
    ((mix_audio_with_background video_audio new_speech 0 speech_volume).length
        = max video_audio.length new_speech.length ∧
      ∀ i, (mix_audio_with_background video_audio new_speech 0
          speech_volume).getD i 0
        = speech_volume * new_speech.getD i 0) ∧
    ((mix_audio_with_background video_audio new_speech background_volume
        0).length
        = max video_audio.length new_speech.length ∧
      ∀ i, (mix_audio_with_background video_audio new_speech
          background_volume 0).getD i 0
        = background_volume * video_audio.getD i 0) := by
  refine ⟨⟨?_, ?_⟩, ?_, ?_⟩
  · simp only [mix_audio_with_background]
    by_cases hsv : speech_volume = 1
    · rw [if_neg (by simp [hsv]), length_amixLongest, length_volumeFilter]
    · rw [if_pos hsv, length_amixLongest, length_volumeFilter,
        length_volumeFilter]
  · intro i
    simp only [mix_audio_with_background]
    by_cases hsv : speech_volume = 1
    · rw [if_neg (by simp [hsv]), getD_amixLongest, getD_volumeFilter, hsv]
      ring
    · rw [if_pos hsv, getD_amixLongest, getD_volumeFilter, getD_volumeFilter]
      ring
  · simp only [mix_audio_with_background]
    rw [if_pos (by norm_num : (0:ℚ) ≠ 1), length_amixLongest,
      length_volumeFilter, length_volumeFilter]
  · intro i
    simp only [mix_audio_with_background]
    rw [if_pos (by norm_num : (0:ℚ) ≠ 1), getD_amixLongest,
      getD_volumeFilter, getD_volumeFilter]
    ring

/-- C9: `text_to_speech` raises `ValueError("Unsupported TTS provider: ...")`
precisely when the lower-cased provider is neither `"openai"` nor
`"elevenlabs"`, and raises `ValueError("ElevenLabs client not initialized.
API key required.")` precisely when the provider is `"elevenlabs"` and no
ElevenLabs credential was supplied at construction. -/
theorem text_to_speech_error_iff (p : String) (k : Bool) :
    (text_to_speech p k = .error (.unsupportedProvider p) ↔
      (p.toLower ≠ "openai" ∧ p.toLower ≠ "elevenlabs")) ∧
    (text_to_speech p k = .error .elevenlabsClientMissing ↔
      (p.toLower = "elevenlabs" ∧ k = false)) := by
  by_cases h1 : p.toLower = "openai"
  · have h2 : p.toLower ≠ "elevenlabs" := by rw [h1]; decide
    unfold text_to_speech
    rw [if_pos h1]
    exact ⟨iff_of_false (by simp) (by simp [h1]),
      iff_of_false (by simp) (by simp [h2])⟩
  · by_cases h2 : p.toLower = "elevenlabs"
    · unfold text_to_speech
      rw [if_neg h1, if_pos h2]
      cases k with
      | false =>
        rw [if_pos rfl]
        exact ⟨iff_of_false (by simp) (by simp [h2]),
          iff_of_true rfl ⟨h2, rfl⟩⟩
      | true =>
        rw [if_neg (by simp)]
        exact ⟨iff_of_false (by simp) (by simp [h2]),
          iff_of_false (by simp) (by simp)⟩
    · unfold text_to_speech
      rw [if_neg h1, if_neg h2]
      exact ⟨iff_of_true rfl ⟨h1, h2⟩,
        iff_of_false (by simp) (by simp [h2])⟩

/-- C9 (witness): for the unregistered provider string `"gtts"` with no
ElevenLabs credential, the two iffs hold as stated. -/
theorem text_to_speech_error_iff_witness :
    (text_to_speech "gtts" false = .error (.unsupportedProvider "gtts") ↔
      ("gtts".toLower ≠ "openai" ∧ "gtts".toLower ≠ "elevenlabs")) ∧
    (text_to_speech "gtts" false = .error .elevenlabsClientMissing ↔
      ("gtts".toLower = "elevenlabs" ∧ false = false)) :=
  text_to_speech_error_iff "gtts" false

/-- C10: the three YouTube URL shapes are classified as remote sources and
the two non-URL strings as local paths. -/
theorem url_classification_examples :
    is_youtube_url "https://www.youtube.com/watch?v=X" = true ∧
    is_youtube_url "https://youtu.be/X" = true ∧
    is_youtube_url "https://www.youtube.com/shorts/X" = true ∧
    is_youtube_url "local.mp4" = false ∧
    is_youtube_url "not_a_url" = false := by
  decide

/-- C7 (witness): a probe outcome whose first stream records duration 7
returns exactly 7. -/
theorem probe_stream_duration_spec_witness :
    probe_stream_duration (.streams [⟨some (some 7)⟩]) = .ok 7 :=
  probe_stream_duration_spec.1 [] 7

/-- C8 (witness): for background `[1, 1]` and speech `[5]` at
`backgroundGain = 0`, sample 0 of the mix equals the speech sample. -/
theorem mix_gain_zero_samplewise_witness :
    (mix_audio_with_background [1, 1] [5] 0 1).getD 0 0
      = 1 * ([5] : List ℚ).getD 0 0 :=
  (mix_gain_zero_samplewise [1, 1] [5] 3 1).1.2 0
